import Mathlib

/-!
Shallow embedding of `src/whisperGUI.py` (IWGUI — Integrative Whisper
Transcriber): Python numeric/string helpers, the SRT time formatter, the
result exporters, the worker-to-UI message protocol, and the Tk application
state transitions that the specification's claims are about.

Python floats are modelled as exact rationals (`ℚ`); the only float
operations the embedded code performs are truncation to an integer,
`divmod`, subtraction, multiplication, comparison, and fixed-precision
rendering, all of which agree with the rational semantics on the inputs the
claims are about.
-/

namespace WhisperGUI

/-- Python `int(q)` on a number: truncation toward zero.
(`q.den` is positive, and `Int.tdiv` truncates toward zero.) -/
def pyInt (q : ℚ) : ℤ := Int.tdiv q.num (q.den : ℤ)

/-- Python `divmod(a, b)` on integers: floor division with the matching
remainder.  For a positive `b` (the only uses here are `3600` and `60`),
Euclidean division and remainder agree with Python's semantics. -/
def pyDivMod (a b : ℤ) : ℤ × ℤ := (Int.ediv a b, Int.emod a b)

/-- Zero-pad the decimal rendering of a natural number to `w` characters,
as Python `f"{n:0wd}"` does for a non-negative `n`. -/
def pyFmtNatPad (n w : Nat) : String :=
  let s := toString n
  String.mk (List.replicate (w - s.length) '0') ++ s

/-- Python `f"{n:0wd}"` for an integer: a sign character counts toward the
field width, zeros fill between the sign and the digits. -/
def pyFmtInt (n : ℤ) (w : Nat) : String :=
  if n < 0 then "-" ++ pyFmtNatPad (-n).toNat (w - 1) else pyFmtNatPad n.toNat w

/-- The function `format_srt_time` from `src/whisperGUI.py`:
```
hours, remainder = divmod(int(seconds), 3600)
minutes, seconds = divmod(remainder, 60)
milliseconds = int((seconds - int(seconds)) * 1000)
return f"{hours:02d}:{minutes:02d}:{int(seconds):02d},{milliseconds:03d}"
```
The second `divmod` rebinds the name `seconds` to the integer remainder, so
the later `milliseconds` expression reads that integer remainder (here
`seconds2`), not the original fractional argument. -/
def format_srt_time (seconds : ℚ) : String :=
  let d1 := pyDivMod (pyInt seconds) 3600
  let hours := d1.1
  let remainder := d1.2
  let d2 := pyDivMod remainder 60
  let minutes := d2.1
  let seconds2 := d2.2
  let milliseconds := pyInt (((seconds2 : ℚ) - ((pyInt (seconds2 : ℚ)) : ℚ)) * 1000)
  pyFmtInt hours 2 ++ ":" ++ pyFmtInt minutes 2 ++ ":" ++
    pyFmtInt (pyInt (seconds2 : ℚ)) 2 ++ "," ++ pyFmtInt milliseconds 3

/-- The characters Python `str.strip()` removes. -/
def pyIsSpace (c : Char) : Bool :=
  c == ' ' || c == '\t' || c == '\n' || c == '\r' || c == '\x0b' || c == '\x0c'

/-- Python `str.strip()`: drop leading and trailing whitespace. -/
def pyStrip (s : String) : String :=
  String.mk (((s.toList.dropWhile pyIsSpace).reverse.dropWhile pyIsSpace).reverse)

/-- Whether the first list occurs at the head of the second. -/
def charsLeadWith : List Char → List Char → Bool
  | [], _ => true
  | _ :: _, [] => false
  | a :: as, b :: bs => a == b && charsLeadWith as bs

/-- Whether `needle` occurs as a contiguous run inside the second list. -/
def charsHave (needle : List Char) : List Char → Bool
  | [] => charsLeadWith needle []
  | c :: rest => charsLeadWith needle (c :: rest) || charsHave needle rest

/-- Python `needle in hay` on strings. -/
def pyInStr (needle hay : String) : Bool := charsHave needle.toList hay.toList

/-- Python `s.endswith(suffix)`. -/
def pyEndsWith (s suffix : String) : Bool :=
  charsLeadWith suffix.toList.reverse s.toList.reverse

/-- Python truthiness of an optional string value (`None` and `""` are
falsy). -/
def pyTruthyStr : Option String → Bool
  | none => false
  | some s => !(s == "")

/-- Floor of a rational, computed from the reduced fraction. -/
def ratFloor (q : ℚ) : ℤ := Int.ediv q.num (q.den : ℤ)

/-- Round to the nearest integer, ties to even — the rounding Python's
fixed-precision float formatting applies to the scaled value. -/
def roundHalfEven (q : ℚ) : ℤ :=
  let n := ratFloor q
  let r := q - (n : ℚ)
  if r < 1/2 then n
  else if 1/2 < r then n + 1
  else if n % 2 = 0 then n else n + 1

/-- Decimal rendering of `m / 10 ^ prec` with exactly `prec` fractional
digits. -/
def pyFmtFixedNat (m prec : Nat) : String :=
  toString (m / 10 ^ prec) ++ "." ++ pyFmtNatPad (m % 10 ^ prec) prec

/-- Python `f"{q:.Nf}"` on the exact rational value of the float. -/
def pyFmtFixed (q : ℚ) (prec : Nat) : String :=
  let scaled := roundHalfEven (q * ((10 : ℚ) ^ prec))
  if scaled < 0 then "-" ++ pyFmtFixedNat (-scaled).toNat prec
  else pyFmtFixedNat scaled.toNat prec

/-- Concatenation of a list of strings, used to state the shapes of the
exported files and messages. -/
def strConcat : List String → String
  | [] => ""
  | s :: rest => s ++ strConcat rest

/-- A recognized speech span produced by the inference library
(`segment.start`, `segment.end`, `segment.text`).  `end` is a Lean keyword,
so that field is called `stop` here. -/
structure Segment where
  start : ℚ
  stop : ℚ
  text : String
deriving DecidableEq

/-- Per-run metadata produced by the inference library (`info.language`,
`info.language_probability`, `info.duration`). -/
structure TranscriptionInfo where
  language : Option String
  language_probability : ℚ
  duration : ℚ
deriving DecidableEq

/-- The typed messages `send_message` puts on `message_queue`, as
interpreted by `process_messages`. -/
inductive Msg
  | status (s : String)
  | progress (p : ℚ)
  | message (icon title text : String)
  | clearResult
  | appendResult (s : String)
  | updateAccelerationButton
deriving DecidableEq

/-- True exactly for modal-notification messages. -/
def isNotification : Msg → Bool
  | Msg.message _ _ _ => true
  | _ => false

/-- One TXT line per segment: `[start -> end] text` with two-decimal
seconds, the spec-side vocabulary for the TXT body. -/
def txt_line (seg : Segment) : String :=
  "[" ++ pyFmtFixed seg.start 2 ++ "s -> " ++ pyFmtFixed seg.stop 2 ++ "s] "
    ++ seg.text ++ "\n"

/-- The TXT writer loop `for segment in segments_list: f.write(...)` from
`save_transcription_results`. -/
def txt_body : List Segment → String
  | [] => ""
  | seg :: rest =>
      ("[" ++ pyFmtFixed seg.start 2 ++ "s -> " ++ pyFmtFixed seg.stop 2 ++ "s] "
        ++ seg.text ++ "\n")
      ++ txt_body rest

/-- The entire content written to `<base>_transcript.txt`. -/
def txt_content (info : TranscriptionInfo) (segs : List Segment) : String :=
  (if pyTruthyStr info.language then "检测语言: " ++ info.language.getD "" ++ "\n" else "")
    ++ ("音频时长: " ++ pyFmtFixed info.duration 1 ++ "秒\n\n")
    ++ txt_body segs

/-- One SRT block as the spec states it: index line, timestamp line with the
arrow, trimmed text, blank separator line. -/
def srt_block (i : Nat) (seg : Segment) : String :=
  toString i ++ "\n"
    ++ (format_srt_time seg.start ++ " --> " ++ format_srt_time seg.stop ++ "\n")
    ++ (pyStrip seg.text ++ "\n\n")

/-- The SRT writer loop `for i, segment in enumerate(segments_list, 1)` from
`save_transcription_results`. -/
def srt_loop : Nat → List Segment → String
  | _, [] => ""
  | i, seg :: rest =>
      (toString i ++ "\n")
        ++ (format_srt_time seg.start ++ " --> " ++ format_srt_time seg.stop ++ "\n")
        ++ (pyStrip seg.text ++ "\n\n")
        ++ srt_loop (i + 1) rest

/-- The entire content written to `<base>.srt`. -/
def srt_content (segs : List Segment) : String := srt_loop 1 segs

/-- The result of `save_transcription_results`: the files written (name and
content) and the completion messages enqueued afterwards.  `base` is the
source file's base name. -/
structure SaveResult where
  files : List (String × String)
  msgs : List Msg
deriving DecidableEq

/-- The function `save_transcription_results`, minus the physical file I/O: which files
are written with which content, and the completion notification listing
every file written, the final status text and the progress value 100. -/
def save_transcription_results (txt_var srt_var : Bool) (base : String)
    (info : TranscriptionInfo) (segs : List Segment) : SaveResult :=
  let txtFiles := if txt_var then [(base ++ "_transcript.txt", txt_content info segs)] else []
  let srtFiles := if srt_var then [(base ++ ".srt", srt_content segs)] else []
  let files := txtFiles ++ srtFiles
  let doneMsg := "转录完成\n" ++ strConcat (files.map (fun f => "已保存到: " ++ f.1 ++ "\n"))
  { files := files
    msgs := [Msg.message "info" "完成" doneMsg, Msg.status "完成! 结果已保存",
             Msg.progress 100] }

/-- The progress messages of the result loop in the no-progress-callback
branch: for `i = 1 .. total_segments`,
`progress = 90 + (i / total_segments) * 10`. -/
def seg_progress (total : Nat) : List Msg :=
  (List.range total).map (fun j => Msg.progress (90 + (((j + 1 : ℕ) : ℚ) / (total : ℚ)) * 10))

/-- The language-detection line appended to the result panel
(`if info.language and info.language_probability:`). -/
def lang_msg (info : TranscriptionInfo) : List Msg :=
  if pyTruthyStr info.language && !(info.language_probability == 0) then
    [Msg.appendResult ("检测语言: " ++ info.language.getD "" ++ " (置信度: "
       ++ pyFmtFixed (info.language_probability * 100) 1 ++ "%)\n")]
  else []

/-- All messages the worker enqueues during a successful local-model run in
which the inference library does not support a progress callback: the
status/progress pairs before and after the model load, the fixed jump to 90
once `list(segments)` has materialized, the result-panel updates, the
per-segment progress loop, and the completion messages from
`save_transcription_results`. -/
def run_messages (txt_var srt_var : Bool) (base : String)
    (info : TranscriptionInfo) (segs : List Segment) : List Msg :=
  [Msg.status "正在加载模型", Msg.progress 10,
   Msg.status "正在分析音频", Msg.progress 20,
   Msg.progress 90, Msg.clearResult]
  ++ lang_msg info
  ++ [Msg.appendResult ("音频时长: " ++ pyFmtFixed info.duration 1 ++ "秒\n\n")]
  ++ seg_progress segs.length
  ++ (save_transcription_results txt_var srt_var base info segs).msgs

/-- The numeric progress updates carried by a message list, in order. -/
def progress_values (ms : List Msg) : List ℚ :=
  ms.filterMap (fun m => match m with | Msg.progress p => some p | _ => none)

/-- The six run-control widgets disabled by `start_transcription` and
re-enabled by the `finally` block of `run_transcription`. -/
inductive Widget
  | transcribeBtn | fileBtn | modelSize | accelerateBtn | browseBtn | languageBox
deriving DecidableEq

/-- A UI-relevant action of the worker thread: either enqueue a message for
the UI thread's drain, or call `.config(state=...)` on a widget directly. -/
inductive WAct
  | enqueue (m : Msg)
  | config_state (w : Widget) (enabled : Bool)
deriving DecidableEq

/-- True exactly for queue submissions. -/
def isEnqueue : WAct → Bool
  | WAct.enqueue _ => true
  | WAct.config_state _ _ => false

/-- The direct widget mutations of the `finally` block of
`run_transcription`: the six run controls are re-enabled by
`.config(state=tk.NORMAL)` calls made on the worker thread itself. -/
def cleanup_ui_actions : List WAct :=
  [WAct.config_state Widget.transcribeBtn true, WAct.config_state Widget.fileBtn true,
   WAct.config_state Widget.modelSize true, WAct.config_state Widget.accelerateBtn true,
   WAct.config_state Widget.browseBtn true, WAct.config_state Widget.languageBox true]

/-- The UI-relevant actions of the worker thread across a whole successful
run: the body communicates through `send_message` only, then the cleanup
touches the widgets directly. -/
def worker_ui_actions (txt_var srt_var : Bool) (base : String)
    (info : TranscriptionInfo) (segs : List Segment) : List WAct :=
  (run_messages txt_var srt_var base info segs).map WAct.enqueue ++ cleanup_ui_actions

/-- The mutable application state of `WhisperTranscriber` that the claims
are about: the CPU/GPU flag, the persisted configuration record, the widget
states, the result panel, the model cache, the lazily created requests
session (`none` = never created, `some b` with `b` the open flag), and the
worker-to-UI message queue. -/
structure AppState where
  using_cpu : Bool
  config_device : Option String
  config_path : Option String
  model_path : String
  filename : Option String
  txt_var : Bool
  srt_var : Bool
  transcribe_btn_enabled : Bool
  file_btn_enabled : Bool
  model_size_enabled : Bool
  accelerate_btn_enabled : Bool
  browse_btn_enabled : Bool
  language_enabled : Bool
  accelerate_btn_text : String
  status_var : String
  progress_var : ℚ
  result_frame_initialized : Bool
  result_text : String
  model_cache : List (String × Nat)
  requests_session : Option Bool
  queue : List Msg
deriving DecidableEq

/-- The handler `toggle_acceleration`: flip the CPU/GPU flag, relabel the button, record
the device choice in the configuration and save it. -/
def toggle_acceleration (st : AppState) : AppState :=
  let u := !st.using_cpu
  if u then
    { st with using_cpu := u, accelerate_btn_text := "加速", config_device := some "cpu" }
  else
    { st with using_cpu := u, accelerate_btn_text := "GPU模式", config_device := some "cuda" }

/-- The dispatch of one queued message inside `process_messages`. -/
def process_message (st : AppState) (m : Msg) : AppState :=
  match m with
  | Msg.status s => { st with status_var := s }
  | Msg.progress p => { st with progress_var := p }
  | Msg.message _ _ _ => st
  | Msg.clearResult =>
      if st.result_frame_initialized then { st with result_text := "" } else st
  | Msg.appendResult s =>
      if st.result_frame_initialized then { st with result_text := st.result_text ++ s }
      else st
  | Msg.updateAccelerationButton => toggle_acceleration st

/-- One tick of `process_messages` on the UI thread: drain every pending
message in order and apply it. -/
def process_messages (st : AppState) : AppState :=
  { st.queue.foldl process_message st with queue := [] }

/-- The outcome of `start_transcription`: the state afterwards, whether a
worker thread was spawned, and the warning dialogs shown. -/
structure StartResult where
  state : AppState
  thread_spawned : Bool
  warnings : List String
deriving DecidableEq

/-- The handler `start_transcription`: the two synchronous precondition checks, then
disabling the six controls, initializing the result frame, resetting the
progress bar and spawning the worker thread. -/
def start_transcription (st : AppState) : StartResult :=
  match st.filename with
  | none => { state := st, thread_spawned := false, warnings := ["请选择文件"] }
  | some _ =>
      if !st.txt_var && !st.srt_var then
        { state := st, thread_spawned := false, warnings := ["请选择至少一种输出格式"] }
      else
        { state :=
            { st with
              transcribe_btn_enabled := false, file_btn_enabled := false,
              model_size_enabled := false, accelerate_btn_enabled := false,
              browse_btn_enabled := false, language_enabled := false,
              result_frame_initialized := true, result_text := "",
              progress_var := 0 }
          thread_spawned := true, warnings := [] }

/-- Python `os.path.join(a, "base")` as used by `select_model_dir` (the source
imports `winreg`, so this is the Windows build of `os.path`). -/
def osPathJoin (a b : String) : String :=
  if a == "" then b
  else if pyEndsWith a "\\" || pyEndsWith a "/" then a ++ b
  else a ++ "\\" ++ b

/-- The handler `select_model_dir`, parameterised by the directory string the dialog
returned and an oracle for `os.path.exists`. -/
def select_model_dir (pathExists : String → Bool) (dirname0 : String)
    (st : AppState) : AppState :=
  let dirname := if pyEndsWith dirname0 "models" then osPathJoin dirname0 "base" else dirname0
  if !(dirname == "") && pathExists dirname then
    { st with model_path := dirname, model_size_enabled := false,
              config_path := some dirname }
  else
    { st with model_size_enabled := true }

/-- The loop `for model in self.model_cache.values(): del model` from the
`finally` block: `del model` removes only the local loop binding on each
iteration; the dictionary itself is never modified, so the traversal leaves
the cache exactly as it was. -/
def del_cache_values (cache : List (String × Nat)) : List (String × Nat) :=
  cache

/-- The `finally` block of `run_transcription`: re-enable the six controls
directly, close the requests session if one was created, and run the
cache-deletion loop. -/
def run_transcription_finally (st : AppState) : AppState :=
  { st with
    transcribe_btn_enabled := true, file_btn_enabled := true,
    model_size_enabled := true, accelerate_btn_enabled := true,
    browse_btn_enabled := true, language_enabled := true,
    requests_session := st.requests_session.map (fun _ => false),
    model_cache := del_cache_values st.model_cache }

/-- The marker substring the fallback handler looks for in the
`RuntimeError` text. -/
def cuda_marker : String := "CUDA driver version is insufficient"

/-- The three messages the fallback path sends before retrying on CPU: the
modal warning, the status update, and the acceleration-button toggle
command. -/
def fallback_msgs : List Msg :=
  [Msg.message "warning" "GPU不可用" "CUDA驱动版本不足，切换到CPU模式",
   Msg.status "CUDA驱动版本不足，切换到CPU模式...",
   Msg.updateAccelerationButton]

/-- The outcome of one model-load attempt: the messages enqueued, the log
lines written, the devices passed to the `WhisperModel` constructor in
order, the final result (a model handle or the propagated error message),
the CPU flag afterwards, and the cache afterwards. -/
structure LoadOutcome where
  msgs : List Msg
  logs : List String
  attempts : List String
  result : Except String Nat
  using_cpu : Bool
  cache : List (String × Nat)

/-- The model-load step of `run_transcription` with its GPU→CPU fallback.
`load device` stands for the `WhisperModel(..., device=device, ...)`
constructor call, returning a model handle or raising a `RuntimeError` with
the given message; the local-path branch and the download branch of the
source run this same policy with different constructor arguments. -/
def try_load_model (load : String → Except String Nat)
    (model_size model_path device : String) (using_cpu0 : Bool)
    (cache : List (String × Nat)) : LoadOutcome :=
  let model_key := model_size ++ "_" ++ device ++ "_" ++ model_path
  match load device with
  | Except.ok m =>
      { msgs := [], logs := ["已加载模型: " ++ model_path], attempts := [device],
        result := Except.ok m, using_cpu := using_cpu0,
        cache := (model_key, m) :: cache }
  | Except.error e =>
      if pyInStr cuda_marker e then
        let model_key2 := model_size ++ "_cpu_" ++ model_path
        match load "cpu" with
        | Except.ok m =>
            { msgs := fallback_msgs,
              logs := ["CUDA驱动版本不足，尝试回退到CPU模式",
                       "已加载模型到CPU: " ++ model_path],
              attempts := [device, "cpu"], result := Except.ok m, using_cpu := true,
              cache := (model_key2, m) :: cache }
        | Except.error e2 =>
            { msgs := fallback_msgs,
              logs := ["CUDA驱动版本不足，尝试回退到CPU模式"],
              attempts := [device, "cpu"], result := Except.error e2, using_cpu := true,
              cache := cache }
      else
        { msgs := [], logs := [], attempts := [device],
          result := Except.error e, using_cpu := using_cpu0, cache := cache }

/-- A sample segment for the closed instance theorems. -/
def seg_a : Segment := { start := 0, stop := 1, text := " 你好 " }

/-- A second sample segment. -/
def seg_b : Segment := { start := 1, stop := 3, text := "world" }

/-- A sample two-segment transcription result. -/
def segs_demo : List Segment := [seg_a, seg_b]

/-- Sample per-run metadata with a detected language present. -/
def info_demo : TranscriptionInfo :=
  { language := some "zh", language_probability := 1, duration := 3 }

/-- A sample application state: fresh UI, no file selected, empty queue. -/
def st_demo : AppState :=
  { using_cpu := true, config_device := none, config_path := none,
    model_path := "", filename := none, txt_var := true, srt_var := true,
    transcribe_btn_enabled := false, file_btn_enabled := true,
    model_size_enabled := true, accelerate_btn_enabled := true,
    browse_btn_enabled := true, language_enabled := true,
    accelerate_btn_text := "加速", status_var := "准备就绪", progress_var := 0,
    result_frame_initialized := false, result_text := "", model_cache := [],
    requests_session := none, queue := [] }

/-- The application state at the end of a run body that loaded one model and
created the requests session, just before the `finally` block runs. -/
def st_run_end : AppState :=
  { st_demo with
    model_cache := [("base_cpu_", 7)], requests_session := some true,
    transcribe_btn_enabled := false, file_btn_enabled := false,
    model_size_enabled := false, accelerate_btn_enabled := false,
    browse_btn_enabled := false, language_enabled := false }

/-- A sample model constructor that fails on "cuda" with the
insufficient-driver message and succeeds on "cpu". -/
def load_demo : String → Except String Nat := fun device =>
  if device == "cpu" then Except.ok 1
  else Except.error "CUDA driver version is insufficient for CUDA runtime version"

/-- A sample `os.path.exists` oracle for the model-directory browser. -/
def exists_demo : String → Bool := fun s => s == "D:\\wh\\models\\base"

theorem pyInt_eq_floor (q : ℚ) (h : 0 ≤ q) : pyInt q = ⌊q⌋ := by
  have hn : 0 ≤ q.num := Rat.num_nonneg.mpr h
  obtain ⟨m, hm⟩ := Int.eq_ofNat_of_zero_le hn
  rw [Rat.floor_def]
  unfold pyInt
  rw [hm]
  show Int.ofNat (m / q.den) = Int.ofNat m / Int.ofNat q.den
  rfl

theorem pyInt_intCast (z : ℤ) : pyInt ((z : ℚ)) = z := by
  unfold pyInt
  rw [Rat.intCast_num, Rat.intCast_den]
  cases z with
  | ofNat m => show Int.ofNat (m / 1) = Int.ofNat m; rw [Nat.div_one]
  | negSucc m => show -Int.ofNat (m.succ / 1) = Int.negSucc m; rw [Nat.div_one]; rfl

theorem pyInt_zero : pyInt 0 = 0 := rfl

/-- The `milliseconds` expression in `format_srt_time` is applied to the
(integer) remainder of the second `divmod`; it is identically zero. -/
theorem format_srt_time_ms_zero (z : ℤ) :
    pyInt (((z : ℚ) - ((pyInt (z : ℚ)) : ℚ)) * 1000) = 0 := by
  rw [pyInt_intCast, sub_self, zero_mul, pyInt_zero]

theorem txt_body_eq (segs : List Segment) :
    txt_body segs = strConcat (segs.map txt_line) := by
  induction segs with
  | nil => rfl
  | cons s rest ih => simp [txt_body, strConcat, txt_line, ih]

theorem srt_loop_eq (segs : List Segment) : ∀ i : Nat,
    srt_loop i segs =
      strConcat (((List.range' i segs.length).zip segs).map
        (fun p => srt_block p.1 p.2)) := by
  induction segs with
  | nil => intro i; rfl
  | cons s rest ih =>
      intro i
      simp only [srt_loop, List.length_cons, List.range'_succ, List.zip_cons_cons,
        List.map_cons, strConcat, srt_block, ih (i + 1), List.zip]

theorem progress_values_append (l1 l2 : List Msg) :
    progress_values (l1 ++ l2) = progress_values l1 ++ progress_values l2 :=
  List.filterMap_append ..

theorem progress_values_lang (info : TranscriptionInfo) :
    progress_values (lang_msg info) = [] := by
  unfold lang_msg
  split <;> rfl

theorem progress_values_map_progress (f : Nat → ℚ) (l : List Nat) :
    progress_values (l.map (fun j => Msg.progress (f j))) = l.map f := by
  induction l with
  | nil => rfl
  | cons a t ih => simpa [progress_values, List.filterMap_cons] using ih

theorem progress_values_seg (n : Nat) :
    progress_values (seg_progress n) =
      (List.range n).map (fun j => 90 + (((j + 1 : ℕ) : ℚ) / (n : ℚ)) * 10) :=
  progress_values_map_progress _ _

theorem progress_values_save (t s : Bool) (b : String) (i : TranscriptionInfo)
    (sg : List Segment) :
    progress_values (save_transcription_results t s b i sg).msgs = [100] := by
  unfold save_transcription_results
  rfl

theorem append_base_nonempty (x : String) : (x ++ "base" == "") = false := by
  apply beq_eq_false_iff_ne.mpr
  intro hx
  have h2 := congrArg String.length hx
  rw [String.length_append] at h2
  rw [show ("base").length = 4 from rfl, show ("").length = 0 from rfl] at h2
  omega

/-- C1: the spec claims `format_srt_time` renders the millisecond field of
the duration, with `3725.4 ↦ "01:02:05,400"`.  The code drops the
fractional part — the integer remainder of the second `divmod` shadows the
original `seconds` before the millisecond expression reads it — so at the
failing input `3725.4` it returns `"01:02:05,000"`, not `"01:02:05,400"`;
the millisecond field is always `000`. -/
theorem format_srt_time_at_3725_4 :
    format_srt_time (3725.4 : ℚ) = "01:02:05,000" ∧
    format_srt_time (3725.4 : ℚ) ≠ "01:02:05,400" := by
  have h1 : pyInt (3725.4 : ℚ) = 3725 := by
    rw [pyInt_eq_floor _ (by norm_num)]
    norm_num
  have h : format_srt_time (3725.4 : ℚ) = "01:02:05,000" := by
    simp only [format_srt_time, h1, pyInt_intCast, sub_self, zero_mul, pyInt_zero]
    decide
  exact ⟨h, by rw [h]; decide⟩

/-- C2: the spec claims that after every run the guaranteed-cleanup block
leaves the model cache with no entries, closes the session, and re-enables
the run controls.  The `finally` block does re-enable the six controls and
close the session, but its `for model in self.model_cache.values(): del
model` loop deletes only the loop variable, so at this concrete end-of-run
state the cache still holds its entry afterwards. -/
theorem cleanup_leaves_cache_populated :
    (run_transcription_finally st_run_end).model_cache = [("base_cpu_", 7)] ∧
    (run_transcription_finally st_run_end).model_cache ≠ [] ∧
    (run_transcription_finally st_run_end).requests_session = some false ∧
    (run_transcription_finally st_run_end).transcribe_btn_enabled = true ∧
    (run_transcription_finally st_run_end).file_btn_enabled = true ∧
    (run_transcription_finally st_run_end).model_size_enabled = true ∧
    (run_transcription_finally st_run_end).accelerate_btn_enabled = true ∧
    (run_transcription_finally st_run_end).browse_btn_enabled = true ∧
    (run_transcription_finally st_run_end).language_enabled = true := by
  exact ⟨rfl, List.cons_ne_nil _ _, rfl, rfl, rfl, rfl, rfl, rfl, rfl⟩

/-- C3: if a model-load attempt raises a runtime error whose message
contains the insufficient-CUDA-driver marker, the handler logs the
condition, enqueues exactly one fallback notification, forces the CPU flag,
and retries the constructor exactly once with device "cpu" (whose outcome,
success or failure, is final); an error without the marker is re-raised
with no retry and no messages. -/
theorem try_load_model_fallback (load : String → Except String Nat)
    (ms mp device : String) (u0 : Bool) (cache : List (String × Nat))
    (e : String) (h : load device = Except.error e) :
    (pyInStr cuda_marker e = true →
      (try_load_model load ms mp device u0 cache).attempts = [device, "cpu"] ∧
      (try_load_model load ms mp device u0 cache).result = load "cpu" ∧
      ((try_load_model load ms mp device u0 cache).msgs.filter isNotification).length
        = 1 ∧
      Msg.updateAccelerationButton ∈ (try_load_model load ms mp device u0 cache).msgs ∧
      (try_load_model load ms mp device u0 cache).using_cpu = true ∧
      "CUDA驱动版本不足，尝试回退到CPU模式"
        ∈ (try_load_model load ms mp device u0 cache).logs) ∧
    (pyInStr cuda_marker e = false →
      (try_load_model load ms mp device u0 cache).attempts = [device] ∧
      (try_load_model load ms mp device u0 cache).result = Except.error e ∧
      (try_load_model load ms mp device u0 cache).msgs = []) := by
  constructor
  · intro hm
    cases hc : load "cpu" with
    | ok m =>
        simp [try_load_model, h, hm, hc, fallback_msgs, isNotification]
    | error e2 =>
        simp [try_load_model, h, hm, hc, fallback_msgs, isNotification]
  · intro hm
    simp [try_load_model, h, hm]

theorem try_load_model_fallback_witness :
    load_demo "cuda" =
      Except.error "CUDA driver version is insufficient for CUDA runtime version" ∧
    pyInStr cuda_marker
      "CUDA driver version is insufficient for CUDA runtime version" = true ∧
    (try_load_model load_demo "base" "" "cuda" false []).attempts = ["cuda", "cpu"] ∧
    (try_load_model load_demo "base" "" "cuda" false []).result = load_demo "cpu" ∧
    ((try_load_model load_demo "base" "" "cuda" false []).msgs.filter
      isNotification).length = 1 ∧
    (try_load_model load_demo "base" "" "cuda" false []).using_cpu = true := by
  have h := (try_load_model_fallback load_demo "base" "" "cuda" false []
    "CUDA driver version is insufficient for CUDA runtime version" rfl).1 (by decide)
  exact ⟨rfl, by decide, h.1, h.2.1, h.2.2.1, h.2.2.2.2.1⟩

/-- C4: when no file is selected, or both output-format toggles are off,
`start_transcription` shows one warning dialog, spawns no worker thread,
and leaves the application state (widget states included) unchanged. -/
theorem start_transcription_guard (st : AppState)
    (h : st.filename = none ∨ (st.txt_var = false ∧ st.srt_var = false)) :
    (start_transcription st).state = st ∧
    (start_transcription st).thread_spawned = false ∧
    (start_transcription st).warnings.length = 1 := by
  rcases h with h | ⟨h1, h2⟩
  · simp [start_transcription, h]
  · unfold start_transcription
    cases hf : st.filename with
    | none => exact ⟨rfl, rfl, rfl⟩
    | some f => simp [h1, h2]

theorem start_transcription_guard_witness :
    st_demo.filename = none ∧
    (start_transcription st_demo).state = st_demo ∧
    (start_transcription st_demo).thread_spawned = false ∧
    (start_transcription st_demo).warnings.length = 1 := by
  have h := start_transcription_guard st_demo (Or.inl rfl)
  exact ⟨rfl, h.1, h.2.1, h.2.2⟩

/-- C5: with a detected language present, the TXT export is exactly the
detected-language line, the duration line with its blank separator, and
then one `[start -> end] text` line per input segment in input order, with
two-decimal second stamps. -/
theorem txt_export_structure (info : TranscriptionInfo) (segs : List Segment)
    (srt_var : Bool) (base : String)
    (h : pyTruthyStr info.language = true) :
    txt_content info segs =
      ("检测语言: " ++ info.language.getD "" ++ "\n")
        ++ ("音频时长: " ++ pyFmtFixed info.duration 1 ++ "秒\n\n")
        ++ strConcat (segs.map txt_line) ∧
    (base ++ "_transcript.txt", txt_content info segs)
      ∈ (save_transcription_results true srt_var base info segs).files := by
  constructor
  · unfold txt_content
    rw [txt_body_eq, h]
    simp
  · unfold save_transcription_results
    simp

theorem txt_export_structure_witness :
    pyTruthyStr info_demo.language = true ∧
    (txt_content info_demo segs_demo =
      ("检测语言: " ++ info_demo.language.getD "" ++ "\n")
        ++ ("音频时长: " ++ pyFmtFixed info_demo.duration 1 ++ "秒\n\n")
        ++ strConcat (segs_demo.map txt_line) ∧
     ("demo" ++ "_transcript.txt", txt_content info_demo segs_demo)
      ∈ (save_transcription_results true true "demo" info_demo segs_demo).files) :=
  ⟨rfl, txt_export_structure info_demo segs_demo true "demo" rfl⟩

/-- C6: the SRT export is exactly one block per segment in segment order,
numbered 1, 2, 3, ... — each block being the index line, the
`HH:MM:SS,mmm --> HH:MM:SS,mmm` timestamp line, the whitespace-trimmed
segment text, and a blank separator line. -/
theorem srt_export_structure (segs : List Segment) (txt_var : Bool)
    (base : String) (info : TranscriptionInfo) :
    srt_content segs =
      strConcat (((List.range' 1 segs.length).zip segs).map
        (fun p => srt_block p.1 p.2)) ∧
    List.range' 1 segs.length = (List.range segs.length).map (fun j => j + 1) ∧
    (base ++ ".srt", srt_content segs)
      ∈ (save_transcription_results txt_var true base info segs).files := by
  refine ⟨srt_loop_eq segs 1, ?_, ?_⟩
  · rw [List.range'_eq_map_range]
    simp [Nat.add_comm]
  · unfold save_transcription_results
    simp

/-- C7: in the no-progress-callback branch, the emitted progress values are
10 and 20 (preparation), the fixed jump to 90 once the segment sequence is
materialized, then `90 + (i / n) * 10` for each segment `i = 1 .. n`, and
finally 100 from the completion messages; the sequence is monotonically
non-decreasing and ends at 100. -/
theorem progress_two_phase (txt srt : Bool) (base : String)
    (info : TranscriptionInfo) (segs : List Segment) (h : 1 ≤ segs.length) :
    progress_values (run_messages txt srt base info segs) =
      [10, 20, 90] ++ (List.range segs.length).map
        (fun j => 90 + (((j + 1 : ℕ) : ℚ) / ((segs.length : ℕ) : ℚ)) * 10) ++ [100] ∧
    List.Chain' (· ≤ ·) (progress_values (run_messages txt srt base info segs)) ∧
    (progress_values (run_messages txt srt base info segs)).getLast? = some 100 := by
  have heq : progress_values (run_messages txt srt base info segs) =
      [10, 20, 90] ++ (List.range segs.length).map
        (fun j => 90 + (((j + 1 : ℕ) : ℚ) / ((segs.length : ℕ) : ℚ)) * 10) ++ [100] := by
    unfold run_messages
    simp only [progress_values_append, progress_values_lang, progress_values_save,
      progress_values_seg, List.append_nil, List.nil_append, List.append_assoc]
    rfl
  have hn0 : (0 : ℚ) < ((segs.length : ℕ) : ℚ) := by exact_mod_cast h
  refine ⟨heq, ?_, ?_⟩
  · rw [heq, List.append_assoc]
    apply List.chain'_iff_pairwise.mpr
    apply List.pairwise_append.mpr
    refine ⟨?_, ?_, ?_⟩
    · norm_num [List.pairwise_cons]
    · apply List.pairwise_append.mpr
      refine ⟨?_, List.pairwise_singleton _ _, ?_⟩
      · apply (List.pairwise_map).mpr
        apply (List.pairwise_lt_range _).imp
        intro a b hab
        have hc : ((a + 1 : ℕ) : ℚ) ≤ ((b + 1 : ℕ) : ℚ) := by
          exact_mod_cast Nat.succ_le_succ hab.le
        gcongr
      · intro x hx y hy
        simp only [List.mem_singleton] at hy
        subst hy
        obtain ⟨j, hj, rfl⟩ := List.mem_map.mp hx
        have hj' : j + 1 ≤ segs.length := List.mem_range.mp hj
        have hdle : ((j + 1 : ℕ) : ℚ) / ((segs.length : ℕ) : ℚ) ≤ 1 := by
          rw [div_le_one hn0]
          exact_mod_cast hj'
        nlinarith [hdle]
    · intro a ha b hb
      have ha' : a ≤ 90 := by
        simp only [List.mem_cons, List.mem_singleton, List.not_mem_nil,
          or_false] at ha
        rcases ha with rfl | rfl | rfl <;> norm_num
      have hb' : 90 ≤ b := by
        rcases List.mem_append.mp hb with hb | hb
        · obtain ⟨j, hj, rfl⟩ := List.mem_map.mp hb
          have hpos : 0 ≤ ((j + 1 : ℕ) : ℚ) / ((segs.length : ℕ) : ℚ) * 10 := by positivity
          linarith
        · simp only [List.mem_singleton] at hb
          subst hb
          norm_num
      linarith
  · rw [heq]
    exact List.getLast?_concat _

theorem progress_two_phase_witness :
    1 ≤ segs_demo.length ∧
    (progress_values (run_messages true true "demo" info_demo segs_demo) =
      [10, 20, 90] ++ (List.range segs_demo.length).map
        (fun j => 90 + (((j + 1 : ℕ) : ℚ) / ((segs_demo.length : ℕ) : ℚ)) * 10)
        ++ [100] ∧
     List.Chain' (· ≤ ·)
       (progress_values (run_messages true true "demo" info_demo segs_demo)) ∧
     (progress_values (run_messages true true "demo" info_demo segs_demo)).getLast?
       = some 100) :=
  ⟨by decide, progress_two_phase true true "demo" info_demo segs_demo (by decide)⟩

/-- C8 (counterexample): the claim that the worker thread never mutates UI
state directly — that every change it produces, cleanup included, becomes
visible only through the queue drain — is false: on this concrete run the
worker's action trace contains a direct widget configuration (the `finally`
block re-enabling the transcribe button from the worker thread). -/
theorem worker_mutates_ui_directly :
    ¬ (∀ a ∈ worker_ui_actions true true "demo" info_demo segs_demo,
        isEnqueue a = true) := by
  intro hall
  have hmem : WAct.config_state Widget.transcribeBtn true
      ∈ worker_ui_actions true true "demo" info_demo segs_demo := by
    unfold worker_ui_actions
    refine List.mem_append_right _ ?_
    unfold cleanup_ui_actions
    exact List.mem_cons_self _ _
  have := hall _ hmem
  simp [isEnqueue] at this

/-- C8 (amended): every status, progress, notification, and result-panel
change the worker produces during the run body is an enqueue (visible only
when `process_messages` drains the queue), but the end-of-run cleanup
re-enables the six run controls by direct widget configuration from the
worker thread rather than through the queue. -/
theorem worker_queue_discipline (txt srt : Bool) (base : String)
    (info : TranscriptionInfo) (segs : List Segment) :
    (∀ a ∈ (run_messages txt srt base info segs).map WAct.enqueue,
      isEnqueue a = true) ∧
    (∀ a ∈ cleanup_ui_actions, isEnqueue a = false) ∧
    worker_ui_actions txt srt base info segs =
      (run_messages txt srt base info segs).map WAct.enqueue ++ cleanup_ui_actions := by
  refine ⟨?_, ?_, rfl⟩
  · intro a ha
    obtain ⟨m, _, rfl⟩ := List.mem_map.mp ha
    rfl
  · intro a ha
    simp only [cleanup_ui_actions, List.mem_cons, List.not_mem_nil, or_false] at ha
    rcases ha with rfl | rfl | rfl | rfl | rfl | rfl <;> rfl

theorem worker_queue_discipline_witness :
    isEnqueue (WAct.enqueue (Msg.status "正在加载模型")) = true ∧
    isEnqueue (WAct.config_state Widget.transcribeBtn true) = false := by
  have h := worker_queue_discipline true true "demo" info_demo segs_demo
  refine ⟨h.1 _ ?_, h.2.1 _ ?_⟩
  · refine List.mem_map_of_mem WAct.enqueue ?_
    unfold run_messages
    exact List.mem_append_left _ (List.mem_append_left _ (List.mem_append_left _
      (List.mem_append_left _ (List.mem_cons_self _ _))))
  · unfold cleanup_ui_actions
    exact List.mem_cons_self _ _

/-- C9: the fallback path sets the CPU flag and enqueues the
acceleration-button toggle command; the UI relay dispatches that command to
the same `toggle_acceleration` handler as the user-facing button, which
negates the flag — so after the drain the CPU flag is `false` again and the
configuration records device `"cuda"`, although the run's model was loaded
on CPU. -/
theorem fallback_toggle_reverts (st : AppState) (h : st.queue = []) :
    (try_load_model load_demo "base" "" "cuda" false []).using_cpu = true ∧
    (try_load_model load_demo "base" "" "cuda" false []).msgs = fallback_msgs ∧
    Msg.updateAccelerationButton ∈ fallback_msgs ∧
    (∀ s : AppState, process_message s Msg.updateAccelerationButton
      = toggle_acceleration s) ∧
    (process_messages
      { st with using_cpu := true, queue := st.queue ++ fallback_msgs }).using_cpu
      = false ∧
    (process_messages
      { st with using_cpu := true, queue := st.queue ++ fallback_msgs }).config_device
      = some "cuda" := by
  refine ⟨by decide, by decide, by decide, fun s => rfl, ?_, ?_⟩ <;>
    · rw [h]
      simp [process_messages, fallback_msgs, process_message, toggle_acceleration]

theorem fallback_toggle_reverts_witness :
    st_demo.queue = [] ∧
    ((process_messages
      { st_demo with using_cpu := true,
                     queue := st_demo.queue ++ fallback_msgs }).using_cpu = false ∧
     (process_messages
      { st_demo with using_cpu := true,
                     queue := st_demo.queue ++ fallback_msgs }).config_device
       = some "cuda") := by
  have h := fallback_toggle_reverts st_demo rfl
  exact ⟨rfl, h.2.2.2.2.1, h.2.2.2.2.2⟩

/-- C10: if the chosen directory ends with "models", the stored and
persisted model path is the chosen path joined with "base", not the chosen
path itself; and whenever the (possibly rewritten) path fails the existence
check, the model-path field and the configuration are left unchanged and
the model-size selector is re-enabled. -/
theorem select_model_dir_spec (pathExists : String → Bool) (dn : String)
    (st : AppState) :
    (pyEndsWith dn "models" = true →
      pathExists (osPathJoin dn "base") = true →
        (select_model_dir pathExists dn st).model_path = osPathJoin dn "base" ∧
        (select_model_dir pathExists dn st).config_path
          = some (osPathJoin dn "base")) ∧
    (pathExists (if pyEndsWith dn "models" then osPathJoin dn "base" else dn)
        = false →
      (select_model_dir pathExists dn st).model_path = st.model_path ∧
      (select_model_dir pathExists dn st).config_path = st.config_path ∧
      (select_model_dir pathExists dn st).model_size_enabled = true) := by
  have hne : (osPathJoin dn "base" == "") = false := by
    unfold osPathJoin
    split
    · decide
    · split
      · exact append_base_nonempty dn
      · exact append_base_nonempty (dn ++ "\\")
  constructor
  · intro hm hex
    simp [select_model_dir, hm, hne, hex]
  · intro hex
    cases hm : pyEndsWith dn "models" with
    | false =>
        rw [hm] at hex
        simp only [Bool.false_eq_true, if_false] at hex
        simp [select_model_dir, hm, hex]
    | true =>
        rw [hm] at hex
        simp only [if_true] at hex
        simp [select_model_dir, hm, hex, hne]

theorem select_model_dir_spec_witness :
    pyEndsWith "D:\\wh\\models" "models" = true ∧
    exists_demo (osPathJoin "D:\\wh\\models" "base") = true ∧
    ((select_model_dir exists_demo "D:\\wh\\models" st_demo).model_path
        = osPathJoin "D:\\wh\\models" "base" ∧
     (select_model_dir exists_demo "D:\\wh\\models" st_demo).config_path
        = some (osPathJoin "D:\\wh\\models" "base")) := by
  have h := (select_model_dir_spec exists_demo "D:\\wh\\models" st_demo).1
    (by decide) (by decide)
  exact ⟨by decide, by decide, h⟩

end WhisperGUI
